import Mathlib

/-
Verification development for the resumable SAE training orchestrator
(sae_training/train_sae_on_language_model.py, sae_training/config.py,
sae_training/lm_runner.py).

The Python code is shallowly embedded:
  * tensors indexed per latent unit become lists over Nat indices;
  * `feature_acts` (output of the external SAE forward pass) is an input,
    modelled as a matrix List (List Int) (rows x units);
  * Python exceptions become an explicit PyError value in Except;
  * Python `n % 0` raises ZeroDivisionError, which the embedding makes
    explicit wherever the source computes a modulus;
  * the optimizer and scheduler are external-library state; they appear as
    Nat handles advanced by caller-supplied step functions;
  * rational division in Lean is total (x / 0 = 0), so statements about
    "never divides by zero" are phrased on the recorded denominators.
-/

/-- Python exception kinds that the embedded code can raise. -/
inductive PyError where
  | valueError
  | zeroDivision
  | attributeError
  | fileNotFound
  | interrupted
deriving DecidableEq

/- String literal constants used by the embedding. -/

def underscoreSep : String := "_"

def slashSep : String := "/"

def ptExt : String := ".pt"

def finalTag : String := "final_"

def msgInterrupted : String := "interrupted, saving progress"

def msgDoneSaving : String := "done saving"

def strGeometricMedian : String := "geometric_median"

def strMean : String := "mean"

def strZeros : String := "zeros"

/-- Per-model training context, from SAETrainContext in
train_sae_on_language_model.py.  `act_freq_scores` and
`n_forward_passes_since_fired` are per-unit tensors, embedded as lists;
`optimizer` and `scheduler` are external-library objects, embedded as
handles that caller-supplied step functions advance. -/
structure SAETrainContext where
  act_freq_scores : List Nat
  n_forward_passes_since_fired : List Nat
  n_frac_active_tokens : Nat
  optimizer : Nat
  scheduler : Nat
deriving DecidableEq

/-- The feature_sparsity property of SAETrainContext:
act_freq_scores / n_frac_active_tokens, elementwise.  In the source this is
a float tensor division; in Lean, Rat division by zero yields 0 rather
than inf/nan, so claims about division safety are stated on the
denominator values recorded at each read. -/
def feature_sparsity (ctx : SAETrainContext) : List Rat :=
  ctx.act_freq_scores.map (fun s => (s : Rat) / (ctx.n_frac_active_tokens : Rat))

/-- Index-aware map starting at index i, used to embed per-unit tensor
updates. -/
def idxMapFrom (f : Nat → α → β) (i : Nat) : List α → List β
  | [] => []
  | a :: rest => f i a :: idxMapFrom f (i + 1) rest

/-- Index-aware map over a list (index starts at 0). -/
def idxMap (f : Nat → α → β) (l : List α) : List β := idxMapFrom f 0 l

theorem length_idxMapFrom (f : Nat → α → β) (i : Nat) (l : List α) :
    (idxMapFrom f i l).length = l.length := by
  induction l generalizing i with
  | nil => rfl
  | cons a rest ih => simp [idxMapFrom, ih]

theorem length_idxMap (f : Nat → α → β) (l : List α) :
    (idxMap f l).length = l.length := length_idxMapFrom f 0 l

theorem getD_idxMapFrom (f : Nat → α → β) (i j : Nat) (l : List α)
    (h : j < l.length) (b : β) (a : α) :
    (idxMapFrom f i l).getD j b = f (i + j) (l.getD j a) := by
  induction l generalizing i j with
  | nil => simp at h
  | cons x rest ih =>
    cases j with
    | zero => simp [idxMapFrom]
    | succ j =>
      simp only [idxMapFrom, List.getD_cons_succ]
      rw [ih (i + 1) j (by simpa using h) ]
      congr 1
      omega

theorem getD_idxMap (f : Nat → α → β) (j : Nat) (l : List α)
    (h : j < l.length) (b : β) (a : α) :
    (idxMap f l).getD j b = f j (l.getD j a) := by
  simpa using getD_idxMapFrom f 0 j l h b a

/-- Whether unit j fired in this batch: some row of feature_acts has a
strictly positive activation at position j.  Embeds
`(feature_acts > 0).float().sum(-2) > 0`. -/
def didFire (featureActs : List (List Int)) (j : Nat) : Bool :=
  featureActs.any (fun row => decide (0 < row.getD j 0))

/-- Number of rows in which unit j has a nonzero activation.  Embeds
`(feature_acts.abs() > 0).float().sum(0)` (|x| > 0 iff x is nonzero). -/
def fireCount (featureActs : List (List Int)) (j : Nat) : Nat :=
  featureActs.countP (fun row => decide (row.getD j 0 ≠ 0))

/-- Events observable from the training loop: printed lines, reads of
feature_sparsity at a sparsity-window boundary (recording the sparsity
value computed and the denominator used), and checkpoint saves (recording
the checkpoint name and the denominator of each context's sparsity read
performed by the save). -/
inductive TrainEvent where
  | print (s : String)
  | boundaryRead (sparsity : List Rat) (denom : Nat)
  | save (name : String) (denoms : List Nat)
deriving DecidableEq

/-- Result of one _train_step call for one context. -/
structure TrainStepResult where
  ctx : SAETrainContext
  events : List TrainEvent
  ghost_grad_neuron_mask : List Bool
deriving DecidableEq

/-- Lines 373-397 of _train_step: every feature_sampling_window steps
(condition `(n_training_steps + 1) % feature_sampling_window == 0`),
read the current feature_sparsity (emitting a boundaryRead event with the
pre-reset denominator), then reset act_freq_scores to a fresh zero tensor
of size d_sae and n_frac_active_tokens to 0.  A zero window makes the
Python modulus raise ZeroDivisionError. -/
def sparsityResetPhase (feature_sampling_window d_sae n_training_steps : Nat)
    (ctx : SAETrainContext) : Except PyError (SAETrainContext × List TrainEvent) :=
  if feature_sampling_window = 0 then Except.error PyError.zeroDivision
  else if (n_training_steps + 1) % feature_sampling_window = 0 then
    Except.ok
      ({ ctx with act_freq_scores := List.replicate d_sae 0, n_frac_active_tokens := 0 },
       [TrainEvent.boundaryRead (feature_sparsity ctx) ctx.n_frac_active_tokens])
  else Except.ok (ctx, [])

/-- The step executor _train_step.  After the sparsity-window phase it
computes the dead-unit mask `n_forward_passes_since_fired > dead_feature_window`
(before the forward pass), runs the external forward/backward pass (whose
feature_acts output is the `featureActs` argument), then increments every
since-fired counter and zeroes those of units that fired, accumulates
act_freq_scores and n_frac_active_tokens (+= batch_size), and advances the
optimizer and scheduler handles. -/
def _train_step (feature_sampling_window dead_feature_window batch_size d_sae
    n_training_steps : Nat) (optStep schedStep : Nat → Nat)
    (featureActs : List (List Int)) (ctx : SAETrainContext) :
    Except PyError TrainStepResult :=
  match sparsityResetPhase feature_sampling_window d_sae n_training_steps ctx with
  | Except.error e => Except.error e
  | Except.ok (ctx1, evs) =>
    let mask := ctx1.n_forward_passes_since_fired.map (fun c => decide (dead_feature_window < c))
    let counters := idxMap
      (fun j c => if didFire featureActs j then 0 else c + 1)
      ctx1.n_forward_passes_since_fired
    let scores := idxMap (fun j s => s + fireCount featureActs j) ctx1.act_freq_scores
    Except.ok
      { ctx := { ctx1 with
          n_forward_passes_since_fired := counters,
          act_freq_scores := scores,
          n_frac_active_tokens := ctx1.n_frac_active_tokens + batch_size,
          optimizer := optStep ctx1.optimizer,
          scheduler := schedStep ctx1.scheduler },
        events := evs,
        ghost_grad_neuron_mask := mask }

/-- Fresh per-model context, from _build_train_context: zero tensors of
size d_sae, zero token counter, freshly built optimizer and scheduler. -/
def _build_train_context (d_sae optimizer0 scheduler0 : Nat) : SAETrainContext :=
  { act_freq_scores := List.replicate d_sae 0,
    n_forward_passes_since_fired := List.replicate d_sae 0,
    n_frac_active_tokens := 0,
    optimizer := optimizer0,
    scheduler := scheduler0 }

/-- Checkpoint base path, from LanguageModelSAERunnerConfig.get_base_path:
checkpoint_path + "/" + checkpoint_name + "_" + group name (get_name() is
supplied as the group_name argument). -/
def get_base_path (checkpoint_path group_name checkpoint_name : String) : String :=
  checkpoint_path ++ slashSep ++ checkpoint_name ++ underscoreSep ++ group_name

/-- The valid b_dec_init_method values accepted by
LanguageModelSAERunnerConfig. -/
def bDecInitMethods : List String := [strGeometricMedian, strMean, strZeros]

/-- The construction-time validation performed by
LanguageModelSAERunnerConfig.post-init (config.py lines 103-176): the only
check that raises is `b_dec_init_method not in [geometric_median, mean,
zeros]` (ValueError).  The window-ordering assert
`dead_feature_window <= feature_sampling_window` is commented out in the
source, so the two window arguments are accepted unexamined; they are kept
as arguments here to state that fact. -/
def postInitValidate (b_dec_init_method : String)
    (dead_feature_window feature_sampling_window : Nat) : Except PyError Unit :=
  if b_dec_init_method ∈ bDecInitMethods then Except.ok ()
  else Except.error PyError.valueError

/-- Decimal value of a digit-character list. -/
def digitsVal (ds : List Char) : Nat :=
  ds.foldl (fun n c => 10 * n + (c.toNat - 48)) 0

/-- Python int(s) on one piece of a filename: surrounding whitespace
stripped, then an optional sign followed by at least one digit; anything
else raises ValueError, modelled as none. -/
def pyInt? (s : String) : Option Int :=
  let t := ((s.data.dropWhile Char.isWhitespace).reverse.dropWhile Char.isWhitespace).reverse
  match t with
  | [] => none
  | c :: rest =>
    let signAndDigits :=
      if c = '-' then ((-1 : Int), rest)
      else if c = '+' then ((1 : Int), rest)
      else ((1 : Int), c :: rest)
    if signAndDigits.2 ≠ [] ∧ signAndDigits.2.all Char.isDigit then
      some (signAndDigits.1 * (digitsVal signAndDigits.2 : Nat))
    else none

/-- Characters of a filename before its first underscore. -/
def takeUntilUnderscore : List Char → List Char
  | [] => []
  | c :: rest => if c = '_' then [] else c :: takeUntilUnderscore rest

/-- The first underscore-separated piece of a filename: Python
c.split("_")[0] is everything before the first underscore (the whole
string when there is none). -/
def firstPiece (s : String) : String := String.mk (takeUntilUnderscore s.data)

/-- Append a path under a step key, preserving defaultdict insertion
order: an existing key keeps its position and gains the path at the end of
its list; a new key is appended at the end. -/
def addToStep (m : List (Int × List String)) (steps : Int) (path : String) :
    List (Int × List String) :=
  match m with
  | [] => [(steps, [path])]
  | (k, ps) :: rest =>
    if k = steps then (k, ps ++ [path]) :: rest
    else (k, ps) :: addToStep rest steps path

/-- Python str.startswith, as a code-point prefix test. -/
def pyStartsWith (s pre : String) : Bool := pre.data.isPrefixOf s.data

/-- The traversal inside get_checkpoints_by_step (config.py 192-202): for
each directory entry, int(pieces[0]) — a ValueError for any entry whose
name does not begin with an integer label — then keep the entry under its
step key when the full path starts with the base path for that step. -/
def checkpointsByStepGo (checkpoint_path group_name : String) :
    List String → List (Int × List String) →
    Except PyError (List (Int × List String))
  | [], acc => Except.ok acc
  | c :: rest, acc =>
    match pyInt? (firstPiece c) with
    | none => Except.error PyError.valueError
    | some steps =>
      let full_path := checkpoint_path ++ slashSep ++ c
      if pyStartsWith full_path (get_base_path checkpoint_path group_name (toString steps))
      then checkpointsByStepGo checkpoint_path group_name rest (addToStep acc steps full_path)
      else checkpointsByStepGo checkpoint_path group_name rest acc

/-- get_checkpoints_by_step over the directory listing `files` (the
regular files under checkpoint_path). -/
def get_checkpoints_by_step (checkpoint_path group_name : String)
    (files : List String) : Except PyError (List (Int × List String)) :=
  checkpointsByStepGo checkpoint_path group_name files []

/-- remove_excess_checkpoints (train_sae_on_language_model.py 620-628).
The source unpacks the single returned dict into two variables
(`checkpoints, is_done = cfg.get_checkpoints_by_step()`), which iterates
the dict keys and raises ValueError unless there are exactly two; when the
unpack succeeds, `checkpoints` is an int key and the following
`checkpoints.keys()` raises AttributeError.  Every outcome is therefore an
exception once get_checkpoints_by_step returns. -/
def remove_excess_checkpoints (checkpoint_path group_name : String)
    (files : List String) : Except PyError Unit := do
  let mapped ← get_checkpoints_by_step checkpoint_path group_name files
  match mapped.map (fun kv => kv.1) with
  | [_, _] => Except.error PyError.attributeError
  | _ => Except.error PyError.valueError

/-- Maximum of the step keys (Python max over the dict keys). -/
def maxKey : List Int → Int
  | [] => 0
  | k :: rest => rest.foldl max k

/-- get_resume_base_path (config.py 204-211): FileNotFoundError when the
step map is empty, otherwise the base path of the maximum step. -/
def get_resume_base_path (checkpoint_path group_name : String)
    (files : List String) : Except PyError String := do
  let mapped ← get_checkpoints_by_step checkpoint_path group_name files
  if mapped.isEmpty then Except.error PyError.fileNotFound
  else Except.ok (get_base_path checkpoint_path group_name
    (toString (maxKey (mapped.map (fun kv => kv.1)))))

/-- Result of _save_checkpoint visible to the training loop: the model
group save path and the per-context log feature sparsities. -/
structure SaveCheckpointOutput where
  path : String
  log_feature_sparsities : List (List Rat)
deriving DecidableEq

/- File-name suffixes used by _save_checkpoint, from the SAVE_POSTFIX_*
constants of the source (the sae-group one is empty; the training-state
one keeps the source's spelling). -/

def saveSuffixLogFeatureSparsity : String := "_log_feature_sparsity"

def saveSuffixActivationStore : String := "_activation_store"

def saveSuffixTrainingState : String := "_trainining_state"

/-- The basenames of the four files one _save_checkpoint call writes under
checkpoint_path: model weights, log sparsity tensor, activation store and
training run state, all named checkpoint_name + "_" + group name plus a
suffix. -/
def saveFileBasenames (checkpoint_name group_name : String) : List String :=
  [checkpoint_name ++ underscoreSep ++ group_name ++ ptExt,
   checkpoint_name ++ underscoreSep ++ group_name ++ saveSuffixLogFeatureSparsity ++ ptExt,
   checkpoint_name ++ underscoreSep ++ group_name ++ saveSuffixActivationStore ++ ptExt,
   checkpoint_name ++ underscoreSep ++ group_name ++ saveSuffixTrainingState ++ ptExt]

/-- The loop-level effect of _save_checkpoint (lines 541-618): write the
four checkpoint files, read each context's feature_sparsity for the log
sparsity tensor (the save event records the denominator of each read),
then run remove_excess_checkpoints over the directory listing —
unconditionally, at the end of every save.  The first component is what
has happened by then (the updated directory listing and the save event);
the second is the function's result: the retention pass's exception when
it raises, otherwise the SaveCheckpointOutput the caller would receive.
`logFn` stands for the external numeric _log_feature_sparsity transform
(log10(x + eps), applied pointwise). -/
def _save_checkpoint (logFn : Rat → Rat) (checkpoint_path group_name : String)
    (ctxs : List SAETrainContext) (checkpoint_name : String) (files : List String) :
    (List String × TrainEvent) × Except PyError SaveCheckpointOutput :=
  match remove_excess_checkpoints checkpoint_path group_name
      (files ++ saveFileBasenames checkpoint_name group_name) with
  | Except.error e =>
    ((files ++ saveFileBasenames checkpoint_name group_name,
      TrainEvent.save checkpoint_name (ctxs.map (fun c => c.n_frac_active_tokens))),
     Except.error e)
  | Except.ok _ =>
    ((files ++ saveFileBasenames checkpoint_name group_name,
      TrainEvent.save checkpoint_name (ctxs.map (fun c => c.n_frac_active_tokens))),
     Except.ok { path := get_base_path checkpoint_path group_name checkpoint_name ++ ptExt,
                 log_feature_sparsities := ctxs.map (fun c => (feature_sparsity c).map logFn) })

/-- Parameters of train_sae_group_on_language_model.  `batches i k` is the
feature_acts matrix produced by model k's forward pass on the activation
batch of loop iteration i (the activation store and SAE forward pass are
external collaborators).  `interruptAt = some i` means a termination
signal (SIGINT/SIGTERM/KeyboardInterrupt) arrives at the start of the
iteration whose step counter is i, before a new batch is pulled. -/
structure LoopParams where
  total_training_tokens : Nat
  batch_size : Nat
  feature_sampling_window : Nat
  checkpoint_every : Nat
  dead_feature_window : Nat
  d_sae : Nat
  checkpoint_path : String
  group_name : String
  interruptAt : Option Nat
  batches : Nat → Nat → List (List Int)
  optStep : Nat → Nat
  schedStep : Nat → Nat
  logFn : Rat → Rat

/-- Mutable state of the group training loop, together with the run's
checkpoint directory listing (the basenames written under
checkpoint_path so far; a fresh run starts from an empty directory). -/
structure LoopState where
  ctxs : List SAETrainContext
  n_training_steps : Nat
  n_training_tokens : Nat
  checkpoint_paths : List String
  files : List String
  events : List TrainEvent
deriving DecidableEq

/-- Run _train_step for each context in order against this iteration's
batch (the zip over (sae_group, train_contexts)); k indexes the model
whose forward output is batches n k. -/
def runCtxsFrom (P : LoopParams) (n : Nat) (k : Nat) :
    List SAETrainContext → Except PyError (List SAETrainContext × List TrainEvent)
  | [] => Except.ok ([], [])
  | c :: rest =>
    match _train_step P.feature_sampling_window P.dead_feature_window P.batch_size
      P.d_sae n P.optStep P.schedStep (P.batches n k) c with
    | Except.error e => Except.error e
    | Except.ok r =>
      match runCtxsFrom P n (k + 1) rest with
      | Except.error e => Except.error e
      | Except.ok (rest2, evs) => Except.ok (r.ctx :: rest2, r.events ++ evs)

/-- One iteration of the while loop (lines 156-227): pull a batch, add
batch_size to n_training_tokens, step every context, then the checkpoint
test `n_training_steps % checkpoint_every == 0` (a Python ZeroDivisionError
when checkpoint_every is 0), saving under the current token count.  When
the save's retention pass raises, the exception aborts the iteration with
n_training_steps not yet incremented (the increment at line 223 comes
after the checkpoint block); when the save returns, its path is bound but
not appended to checkpoint_paths, exactly as in the source, and
n_training_steps is incremented. -/
def stepIteration (P : LoopParams) (s : LoopState) : LoopState × Option PyError :=
  let s1 := { s with n_training_tokens := s.n_training_tokens + P.batch_size }
  match runCtxsFrom P s.n_training_steps 0 s.ctxs with
  | Except.error e => (s1, some e)
  | Except.ok (ctxs2, evs) =>
    let s2 := { s1 with ctxs := ctxs2, events := s1.events ++ evs }
    if P.checkpoint_every = 0 then (s2, some PyError.zeroDivision)
    else if s.n_training_steps % P.checkpoint_every = 0 then
      match _save_checkpoint P.logFn P.checkpoint_path P.group_name ctxs2
        (toString s2.n_training_tokens) s2.files with
      | ((files2, ev), Except.error e) =>
        ({ s2 with events := s2.events ++ [ev], files := files2 }, some e)
      | ((files2, ev), Except.ok _saved) =>
        ({ s2 with events := s2.events ++ [ev], files := files2,
                   n_training_steps := s2.n_training_steps + 1 }, none)
    else ({ s2 with n_training_steps := s2.n_training_steps + 1 }, none)

/-- Loop outcomes: normal exit of the while loop, a propagating Python
exception (the KeyboardInterrupt handler turns the signal into a save then
re-raises), or fuel exhaustion of the embedding. -/
inductive LoopOutcome where
  | completed
  | errored (e : PyError)
  | outOfFuel
deriving DecidableEq

/-- The while loop with the interrupt handler (lines 152-240).  When the
signal arrives the handler prints "interrupted, saving progress" and
calls _save_checkpoint with the current n_training_tokens; if that save
raises (in its retention pass), the new exception propagates out of the
except block before "done saving" prints or the re-raise runs; if the
save returns, "done saving" prints and the interruption is re-raised. -/
def runLoop (P : LoopParams) : Nat → LoopState → LoopState × LoopOutcome
  | 0, s => (s, LoopOutcome.outOfFuel)
  | fuel + 1, s =>
    if s.n_training_tokens < P.total_training_tokens then
      if P.interruptAt = some s.n_training_steps then
        match _save_checkpoint P.logFn P.checkpoint_path P.group_name s.ctxs
          (toString s.n_training_tokens) s.files with
        | ((files2, ev), Except.error e) =>
          ({ s with events := s.events ++ [TrainEvent.print msgInterrupted, ev],
                    files := files2 },
           LoopOutcome.errored e)
        | ((files2, ev), Except.ok _saved) =>
          ({ s with events := s.events ++
              [TrainEvent.print msgInterrupted, ev, TrainEvent.print msgDoneSaving],
                    files := files2 },
           LoopOutcome.errored PyError.interrupted)
      else
        match stepIteration P s with
        | (s2, none) => runLoop P fuel s2
        | (s2, some e) => (s2, LoopOutcome.errored e)
    else (s, LoopOutcome.completed)

/-- Return value of train_sae_group_on_language_model. -/
structure TrainSAEGroupOutput (G : Type) where
  sae_group : G
  checkpoint_paths : List String
  log_feature_sparsities : List (List Rat)
deriving DecidableEq

/-- Overall result of a run: a normal return, a propagating exception, or
fuel exhaustion of the embedding. -/
inductive RunResult (G : Type) where
  | ok (out : TrainSAEGroupOutput G)
  | err (e : PyError)
  | fuelOut
deriving DecidableEq

/-- train_sae_group_on_language_model for a fresh (non-resume) run: run
the while loop from the given starting counters over an initially empty
checkpoint directory; on normal loop exit attempt the terminal checkpoint
named "final_" + n_training_tokens — if its retention pass raises, the
exception propagates and nothing is returned; if it returns, its path is
appended (the only append to checkpoint_paths in the source) and the
group, path list and terminal log sparsities are returned.  Fuel
total_training_tokens + 1 dominates the iteration count whenever
batch_size is at least 1. -/
def train_sae_group_on_language_model (G : Type) (saeGroup : G) (P : LoopParams)
    (ctxs0 : List SAETrainContext) (startSteps startTokens : Nat) :
    LoopState × RunResult G :=
  match runLoop P (P.total_training_tokens + 1)
      { ctxs := ctxs0, n_training_steps := startSteps, n_training_tokens := startTokens,
        checkpoint_paths := [], files := [], events := [] } with
  | (s, LoopOutcome.completed) =>
    match _save_checkpoint P.logFn P.checkpoint_path P.group_name s.ctxs
      (finalTag ++ toString s.n_training_tokens) s.files with
    | ((files2, ev), Except.error e) =>
      ({ s with events := s.events ++ [ev], files := files2 }, RunResult.err e)
    | ((files2, ev), Except.ok saved) =>
      ({ s with events := s.events ++ [ev], files := files2,
                checkpoint_paths := s.checkpoint_paths ++ [saved.path] },
       RunResult.ok
        { sae_group := saeGroup, checkpoint_paths := s.checkpoint_paths ++ [saved.path],
          log_feature_sparsities := saved.log_feature_sparsities })
  | (s, LoopOutcome.errored e) => (s, RunResult.err e)
  | (s, LoopOutcome.outOfFuel) => (s, RunResult.fuelOut)

/-- The denominators of every feature_sparsity read recorded in an event
trace: one per boundary read, and one per context at each checkpoint
save. -/
def readDenoms : List TrainEvent → List Nat
  | [] => []
  | TrainEvent.print _ :: rest => readDenoms rest
  | TrainEvent.boundaryRead _ d :: rest => d :: readDenoms rest
  | TrainEvent.save _ ds :: rest => ds ++ readDenoms rest

/-- The process-wide pseudo-random generator states: torch, torch CUDA
(all devices), numpy, and Python random. -/
structure GlobalRandomState (T C N R : Type) where
  torch_state : T
  torch_cuda_state : C
  numpy_state : N
  random_state : R

/-- SAETrainingRunState: the train contexts, the two counters, and the
four generator snapshots. -/
structure SAETrainingRunState (T C N R : Type) where
  train_contexts : List SAETrainContext
  n_training_steps : Nat
  n_training_tokens : Nat
  torch_state : T
  torch_cuda_state : C
  numpy_state : N
  random_state : R

/-- Constructing SAETrainingRunState with the rng fields left at None, as
_save_checkpoint does (lines 566-570): the post-init hook snapshots the
current global state of all four generators together. -/
def mkSAETrainingRunState (ctxs : List SAETrainContext) (steps tokens : Nat)
    (g : GlobalRandomState T C N R) : SAETrainingRunState T C N R :=
  { train_contexts := ctxs, n_training_steps := steps, n_training_tokens := tokens,
    torch_state := g.torch_state, torch_cuda_state := g.torch_cuda_state,
    numpy_state := g.numpy_state, random_state := g.random_state }

/-- SAETrainingRunState.set_random_state (lines 69-73): restore all four
generator states into the process-wide state as a unit. -/
def set_random_state (st : SAETrainingRunState T C N R)
    (g : GlobalRandomState T C N R) : GlobalRandomState T C N R :=
  { torch_state := st.torch_state, torch_cuda_state := st.torch_cuda_state,
    numpy_state := st.numpy_state, random_state := st.random_state }

/-- The list of the first k draws of a generator with step function
`next`, starting from state s. -/
def draws (next : σ → α × σ) : Nat → σ → List α
  | 0, _ => []
  | k + 1, s => (next s).1 :: draws next k (next s).2

/-- C1: snapshotting the four generator states together into an
SAETrainingRunState (as _save_checkpoint's construction with None rng
fields does) and later restoring them as a unit with set_random_state
makes every subsequent draw sequence of every generator — in particular
the first three draws — identical to the sequence that would have
followed the snapshot, regardless of the generator state at restore
time. -/
theorem rng_snapshot_restore_round_trip {T C N R VT VC VN VR : Type}
    (nextTorch : T → VT × T) (nextCuda : C → VC × C)
    (nextNumpy : N → VN × N) (nextRandom : R → VR × R)
    (ctxs : List SAETrainContext) (steps tokens : Nat)
    (g gLater : GlobalRandomState T C N R) (k : Nat) :
    draws nextTorch k (set_random_state (mkSAETrainingRunState ctxs steps tokens g) gLater).torch_state
      = draws nextTorch k g.torch_state ∧
    draws nextCuda k (set_random_state (mkSAETrainingRunState ctxs steps tokens g) gLater).torch_cuda_state
      = draws nextCuda k g.torch_cuda_state ∧
    draws nextNumpy k (set_random_state (mkSAETrainingRunState ctxs steps tokens g) gLater).numpy_state
      = draws nextNumpy k g.numpy_state ∧
    draws nextRandom k (set_random_state (mkSAETrainingRunState ctxs steps tokens g) gLater).random_state
      = draws nextRandom k g.random_state := by
  exact ⟨rfl, rfl, rfl, rfl⟩

/-- C9 counterexample: a config with dead_feature_window = 3000 strictly
greater than feature_sampling_window = 2000 is accepted at construction
time (the window-ordering assert is commented out in config.py), so the
claim that this misconfiguration fails fast is false. -/
theorem config_window_ordering_not_validated :
    postInitValidate strGeometricMedian 3000 2000 = Except.ok () := by
  rfl

/-- C9 amended: construction fails fast (ValueError) exactly when
b_dec_init_method is outside geometric_median/mean/zeros; the
dead/sparsity window ordering is not examined at construction at all (the
result is independent of both window values). -/
theorem config_validation_amended (m : String) (dfw fsw dfw2 fsw2 : Nat) :
    postInitValidate m dfw fsw = postInitValidate m dfw2 fsw2 ∧
    (m ∉ bDecInitMethods → postInitValidate m dfw fsw = Except.error PyError.valueError) ∧
    (m ∈ bDecInitMethods → postInitValidate m dfw fsw = Except.ok ()) := by
  refine ⟨rfl, ?_, ?_⟩ <;> intro h <;> simp [postInitValidate, h]

/-- C9 witness: the amended theorem applied at a concrete invalid method
and at the default-valid method. -/
theorem config_validation_amended_witness :
    postInitValidate ptExt 1000 2000 = Except.error PyError.valueError ∧
    postInitValidate strGeometricMedian 1000 2000 = Except.ok () := by
  refine ⟨(config_validation_amended ptExt 1000 2000 0 0).2.1 ?_,
          (config_validation_amended strGeometricMedian 1000 2000 0 0).2.2 ?_⟩ <;> decide

/-- Any directory entry whose name does not begin with an integer label
makes the get_checkpoints_by_step traversal raise ValueError, whatever was
accumulated so far. -/
theorem checkpointsByStepGo_error (cp gn : String) :
    ∀ (files : List String) (acc : List (Int × List String)) (f : String),
      f ∈ files → pyInt? (firstPiece f) = none →
      checkpointsByStepGo cp gn files acc = Except.error PyError.valueError := by
  intro files
  induction files with
  | nil => intro acc f hf; simp at hf
  | cons c rest ih =>
    intro acc f hf hbad
    rcases List.mem_cons.mp hf with rfl | hmem
    · simp [checkpointsByStepGo, hbad]
    · cases hc : pyInt? (firstPiece c) with
      | none => simp [checkpointsByStepGo, hc]
      | some steps =>
        simp only [checkpointsByStepGo, hc]
        split
        · exact ih _ f hmem hbad
        · exact ih _ f hmem hbad

/-- C10: if the checkpoint directory holds any file whose name does not
begin with an integer label, get_checkpoints_by_step raises ValueError at
int(pieces[0]), and hence both the retention pass run unconditionally at
the end of every _save_checkpoint and the resume discovery raise that
ValueError instead of pruning or selecting checkpoints; the files written
by the terminal save are themselves such files, since their names begin
with "final" followed by the token count. -/
theorem checkpoint_label_parse_failure (cp gn f : String) (files : List String) (t : Nat)
    (hf : f ∈ files) (hbad : pyInt? (firstPiece f) = none) :
    get_checkpoints_by_step cp gn files = Except.error PyError.valueError ∧
    remove_excess_checkpoints cp gn files = Except.error PyError.valueError ∧
    get_resume_base_path cp gn files = Except.error PyError.valueError ∧
    pyInt? (firstPiece (finalTag ++ toString t ++ underscoreSep ++ gn ++ ptExt)) = none := by
  have hg : get_checkpoints_by_step cp gn files = Except.error PyError.valueError :=
    checkpointsByStepGo_error cp gn files [] f hf hbad
  refine ⟨hg, ?_, ?_, ?_⟩
  · unfold remove_excess_checkpoints
    rw [hg]
    rfl
  · unfold get_resume_base_path
    rw [hg]
    rfl
  · have hassoc : finalTag ++ toString t ++ underscoreSep ++ gn ++ ptExt
        = finalTag ++ (toString t ++ underscoreSep ++ gn ++ ptExt) := by
      simp [String.append_assoc]
    rw [hassoc]
    have h : firstPiece (finalTag ++ (toString t ++ underscoreSep ++ gn ++ ptExt))
        = String.mk ['f','i','n','a','l'] := rfl
    rw [h]
    decide

/-- C10 witness: resume discovery over a directory holding one terminal
checkpoint file raises ValueError. -/
theorem checkpoint_label_parse_failure_witness :
    get_resume_base_path ptExt strMean
      [finalTag ++ toString 1000 ++ underscoreSep ++ strMean ++ ptExt]
      = Except.error PyError.valueError := by
  exact (checkpoint_label_parse_failure ptExt strMean
    (finalTag ++ toString 1000 ++ underscoreSep ++ strMean ++ ptExt)
    [finalTag ++ toString 1000 ++ underscoreSep ++ strMean ++ ptExt] 1000
    (by simp) (by decide)).2.2.1

/-- Characterization of a successful _train_step (any positive
feature_sampling_window): field-by-field effect on the context, the
events emitted, and the dead-unit mask, all in terms of the incoming
context and the batch. -/
theorem train_step_ok (fsw W b dsae n : Nat) (o s : Nat → Nat)
    (a : List (List Int)) (ctx : SAETrainContext) (hfsw : 0 < fsw) :
    ∃ r, _train_step fsw W b dsae n o s a ctx = Except.ok r ∧
      r.ctx.n_forward_passes_since_fired
        = idxMap (fun j c => if didFire a j then 0 else c + 1) ctx.n_forward_passes_since_fired ∧
      r.ctx.n_frac_active_tokens
        = (if (n + 1) % fsw = 0 then 0 else ctx.n_frac_active_tokens) + b ∧
      r.ctx.act_freq_scores
        = idxMap (fun j v => v + fireCount a j)
            (if (n + 1) % fsw = 0 then List.replicate dsae 0 else ctx.act_freq_scores) ∧
      r.events = (if (n + 1) % fsw = 0 then
          [TrainEvent.boundaryRead (feature_sparsity ctx) ctx.n_frac_active_tokens] else []) ∧
      r.ghost_grad_neuron_mask
        = ctx.n_forward_passes_since_fired.map (fun c => decide (W < c)) ∧
      r.ctx.optimizer = o ctx.optimizer ∧ r.ctx.scheduler = s ctx.scheduler := by
  have hne : fsw ≠ 0 := Nat.pos_iff_ne_zero.mp hfsw
  by_cases hbd : (n + 1) % fsw = 0 <;>
    simp [_train_step, sparsityResetPhase, hne, hbd]

/-- C7: at a sparsity-window boundary (every feature_sampling_window
steps), the step executor first reads the current feature_sparsity — the
emitted event carries the sparsity computed from the pre-reset scores and
the pre-reset denominator — and then resets act_freq_scores and
n_frac_active_tokens to zero, leaving n_forward_passes_since_fired, the
optimizer and the scheduler untouched; _train_step emits exactly that one
event on such a step. -/
theorem sparsity_window_reset_spec (fsw W b dsae n : Nat) (o s : Nat → Nat)
    (a : List (List Int)) (ctx : SAETrainContext)
    (hfsw : 0 < fsw) (hbd : (n + 1) % fsw = 0) :
    sparsityResetPhase fsw dsae n ctx = Except.ok
      ({ ctx with act_freq_scores := List.replicate dsae 0, n_frac_active_tokens := 0 },
       [TrainEvent.boundaryRead (feature_sparsity ctx) ctx.n_frac_active_tokens]) ∧
    ({ ctx with act_freq_scores := List.replicate dsae 0,
                n_frac_active_tokens := 0 } : SAETrainContext).n_forward_passes_since_fired
      = ctx.n_forward_passes_since_fired ∧
    ({ ctx with act_freq_scores := List.replicate dsae 0,
                n_frac_active_tokens := 0 } : SAETrainContext).optimizer = ctx.optimizer ∧
    ({ ctx with act_freq_scores := List.replicate dsae 0,
                n_frac_active_tokens := 0 } : SAETrainContext).scheduler = ctx.scheduler ∧
    (∃ r, _train_step fsw W b dsae n o s a ctx = Except.ok r ∧
      r.events = [TrainEvent.boundaryRead (feature_sparsity ctx) ctx.n_frac_active_tokens]) := by
  have hne : fsw ≠ 0 := Nat.pos_iff_ne_zero.mp hfsw
  refine ⟨by simp [sparsityResetPhase, hne, hbd], rfl, rfl, rfl, ?_⟩
  obtain ⟨r, hr, -, -, -, hev, -⟩ := train_step_ok fsw W b dsae n o s a ctx hfsw
  exact ⟨r, hr, by simp [hev, hbd]⟩

/-- C7 witness: concrete boundary step on a fresh one-unit context. -/
theorem sparsity_window_reset_spec_witness :
    0 < 1 ∧ (0 + 1) % 1 = 0 ∧
    sparsityResetPhase 1 1 0 (_build_train_context 1 0 0) = Except.ok
      ({ _build_train_context 1 0 0 with act_freq_scores := List.replicate 1 0,
                                         n_frac_active_tokens := 0 },
       [TrainEvent.boundaryRead (feature_sparsity (_build_train_context 1 0 0))
          (_build_train_context 1 0 0).n_frac_active_tokens]) := by
  exact ⟨by decide, by decide,
    (sparsity_window_reset_spec 1 0 1 1 0 id id [] (_build_train_context 1 0 0)
      (by decide) (by decide)).1⟩

/-- getD of a mapped list at an in-bounds index. -/
theorem getD_map (f : α → β) (l : List α) (j : Nat) (h : j < l.length) (d : β) (d2 : α) :
    (l.map f).getD j d = f (l.getD j d2) := by
  induction l generalizing j with
  | nil => simp at h
  | cons x rest ih =>
    cases j with
    | zero => simp
    | succ j => simpa using ih j (by simpa using h)

/-- Iterate _train_step for one context over successive batches, as the
group training loop does across its iterations, recording the dead-unit
mask computed at each step; `acts i` is the feature_acts matrix of the
batch at step i, `n` the starting step counter. -/
def runTrainSteps (fsw W b dsae : Nat) (o s : Nat → Nat) (acts : Nat → List (List Int)) :
    Nat → Nat → SAETrainContext → Except PyError (SAETrainContext × List (List Bool))
  | 0, _, ctx => Except.ok (ctx, [])
  | count + 1, n, ctx =>
    match _train_step fsw W b dsae n o s (acts n) ctx with
    | Except.error e => Except.error e
    | Except.ok r =>
      match runTrainSteps fsw W b dsae o s acts count (n + 1) r.ctx with
      | Except.error e => Except.error e
      | Except.ok (c2, ms) => Except.ok (c2, r.ghost_grad_neuron_mask :: ms)

/-- The steps-since-fired recurrence for unit j starting from counter c0
at step n: the counter is zeroed by a firing batch and otherwise
incremented, exactly as lines 415-417 of the source update
n_forward_passes_since_fired. -/
def counterFrom (acts : Nat → List (List Int)) (j c0 n : Nat) : Nat → Nat
  | 0 => c0
  | t + 1 => if didFire (acts (n + t)) j then 0 else counterFrom acts j c0 n t + 1

/-- Unrolling head step of the counter recurrence. -/
theorem counterFrom_shift (acts : Nat → List (List Int)) (j c0 n : Nat) :
    ∀ t, counterFrom acts j c0 n (t + 1)
      = counterFrom acts j (if didFire (acts n) j then 0 else c0 + 1) (n + 1) t := by
  intro t
  induction t with
  | zero => simp [counterFrom]
  | succ t ih =>
    have harg : n + (t + 1) = (n + 1) + t := by omega
    calc counterFrom acts j c0 n (t + 1 + 1)
        = if didFire (acts (n + (t + 1))) j then 0 else counterFrom acts j c0 n (t + 1) + 1 := rfl
      _ = if didFire (acts ((n + 1) + t)) j then 0
            else counterFrom acts j (if didFire (acts n) j then 0 else c0 + 1) (n + 1) t + 1 := by
          rw [harg, ih]
      _ = counterFrom acts j (if didFire (acts n) j then 0 else c0 + 1) (n + 1) (t + 1) := rfl

/-- The dead-unit mask recorded at every step t equals
steps_since_fired > dead_feature_window evaluated on the counter value
entering step t (i.e. before that step's forward pass). -/
theorem runTrainSteps_masks (fsw W b dsae : Nat) (o s : Nat → Nat)
    (acts : Nat → List (List Int)) (j : Nat) (hfsw : 0 < fsw) :
    ∀ (N n : Nat) (ctx : SAETrainContext), j < ctx.n_forward_passes_since_fired.length →
    ∃ cN masks, runTrainSteps fsw W b dsae o s acts N n ctx = Except.ok (cN, masks) ∧
      masks.length = N ∧
      ∀ t, t < N → (masks.getD t []).getD j false
        = decide (W < counterFrom acts j (ctx.n_forward_passes_since_fired.getD j 0) n t) := by
  intro N
  induction N with
  | zero =>
    intro n ctx hj
    exact ⟨ctx, [], rfl, rfl, by intro t ht; omega⟩
  | succ N ih =>
    intro n ctx hj
    obtain ⟨r, hr, hctr, -, -, -, hmask, -⟩ := train_step_ok fsw W b dsae n o s (acts n) ctx hfsw
    have hlen : j < r.ctx.n_forward_passes_since_fired.length := by
      rw [hctr, length_idxMap]; exact hj
    obtain ⟨cN, ms, hrun, hmslen, hms⟩ := ih (n + 1) r.ctx hlen
    refine ⟨cN, r.ghost_grad_neuron_mask :: ms, ?_, by simp [hmslen], ?_⟩
    · simp [runTrainSteps, hr, hrun]
    · intro t ht
      cases t with
      | zero =>
        simp only [List.getD_cons_zero]
        rw [hmask, getD_map (fun c => decide (W < c)) _ j hj false 0]
        rfl
      | succ t =>
        have hms2 := hms t (by omega)
        have hctr2 : r.ctx.n_forward_passes_since_fired.getD j 0
            = if didFire (acts n) j then 0 else ctx.n_forward_passes_since_fired.getD j 0 + 1 := by
          rw [hctr, getD_idxMap _ j _ hj 0 0]
        simp only [List.getD_cons_succ]
        rw [hms2, hctr2, counterFrom_shift]

/-- getD over a zero replicate list is zero. -/
theorem getD_replicate_zero (m j : Nat) : (List.replicate m (0 : Nat)).getD j 0 = 0 := by
  induction m generalizing j with
  | zero => simp
  | succ m ih =>
    cases j with
    | zero => simp
    | succ j => exact ih j

/-- A unit firing in every batch keeps its counter at zero. -/
theorem counterFrom_always_fired (acts : Nat → List (List Int)) (j : Nat) :
    ∀ t, (∀ i, i < t → didFire (acts i) j = true) → counterFrom acts j 0 0 t = 0 := by
  intro t
  induction t with
  | zero => intro h; rfl
  | succ t ih =>
    intro h
    have hft : didFire (acts t) j = true := h t (by omega)
    simp [counterFrom, Nat.zero_add, hft]

/-- After k consecutive non-firing batches the counter is at least k. -/
theorem counterFrom_ge (acts : Nat → List (List Int)) (j : Nat) :
    ∀ k t, k ≤ t → (∀ i, t - k ≤ i → i < t → didFire (acts i) j = false) →
      k ≤ counterFrom acts j 0 0 t := by
  intro k
  induction k with
  | zero => intro t h1 h2; omega
  | succ k ih =>
    intro t h1 h2
    cases t with
    | zero => omega
    | succ u =>
      have hu : didFire (acts u) j = false := h2 u (by omega) (by omega)
      have step : counterFrom acts j 0 0 (u + 1) = counterFrom acts j 0 0 u + 1 := by
        simp [counterFrom, Nat.zero_add, hu]
      have hge : k ≤ counterFrom acts j 0 0 u :=
        ih u (by omega) (fun i hi1 hi2 => h2 i (by omega) (by omega))
      omega

/-- C6: at every training step the dead-unit mask equals exactly
steps_since_fired > dead_feature_window computed before the forward pass
(conjunct 3, with counterFrom the counter's defining recurrence);
consequently a unit that fires in every batch is never masked (conjunct
4), and a unit that has not fired for more than dead_feature_window
consecutive batches is masked on the next step (conjunct 5). -/
theorem dead_unit_mask_correct (fsw W b dsae N j : Nat) (o s : Nat → Nat)
    (acts : Nat → List (List Int)) (ctx0 : SAETrainContext)
    (hfsw : 0 < fsw) (hj : j < dsae)
    (hfresh : ctx0.n_forward_passes_since_fired = List.replicate dsae 0) :
    ∃ cN masks, runTrainSteps fsw W b dsae o s acts N 0 ctx0 = Except.ok (cN, masks) ∧
      masks.length = N ∧
      (∀ t, t < N → (masks.getD t []).getD j false
        = decide (W < counterFrom acts j 0 0 t)) ∧
      ((∀ i, i < N → didFire (acts i) j = true) →
        ∀ t, t < N → (masks.getD t []).getD j false = false) ∧
      (∀ t k, t < N → k ≤ t → W < k →
        (∀ i, t - k ≤ i → i < t → didFire (acts i) j = false) →
        (masks.getD t []).getD j false = true) := by
  have hjlen : j < ctx0.n_forward_passes_since_fired.length := by
    rw [hfresh, List.length_replicate]; exact hj
  obtain ⟨cN, masks, hrun, hlen, hmask⟩ :=
    runTrainSteps_masks fsw W b dsae o s acts j hfsw N 0 ctx0 hjlen
  have hzero : ctx0.n_forward_passes_since_fired.getD j 0 = 0 := by
    rw [hfresh]; exact getD_replicate_zero dsae j
  rw [hzero] at hmask
  refine ⟨cN, masks, hrun, hlen, hmask, ?_, ?_⟩
  · intro hall t ht
    rw [hmask t ht, counterFrom_always_fired acts j t (fun i hi => hall i (by omega))]
    simp
  · intro t k ht hkt hWk hquiet
    rw [hmask t ht]
    have := counterFrom_ge acts j k t hkt hquiet
    simp only [decide_eq_true_eq]
    omega

/-- C6 witness: three steps with a unit that fires only in the first
batch; hypotheses of the theorem discharged at fsw = 2, W = 1, d_sae = 1,
j = 0 on a fresh context. -/
theorem dead_unit_mask_correct_witness :
    0 < 2 ∧ 0 < 1 ∧
    (_build_train_context 1 0 0).n_forward_passes_since_fired = List.replicate 1 0 ∧
    (∃ cN masks,
      runTrainSteps 2 1 1 1 id id (fun i => if i = 0 then [[1]] else [[0]]) 3 0
        (_build_train_context 1 0 0) = Except.ok (cN, masks) ∧
      masks.length = 3 ∧
      (∀ t, t < 3 → (masks.getD t []).getD 0 false
        = decide (1 < counterFrom (fun i => if i = 0 then [[1]] else [[0]]) 0 0 0 t)) ∧
      ((∀ i, i < 3 → didFire ((fun i => if i = 0 then [[1]] else [[0]]) i) 0 = true) →
        ∀ t, t < 3 → (masks.getD t []).getD 0 false = false) ∧
      (∀ t k, t < 3 → k ≤ t → 1 < k →
        (∀ i, t - k ≤ i → i < t → didFire ((fun i => if i = 0 then [[1]] else [[0]]) i) 0 = false) →
        (masks.getD t []).getD 0 false = true)) := by
  exact ⟨by decide, by decide, by decide,
    dead_unit_mask_correct 2 1 1 1 3 0 id id
      (fun i => if i = 0 then [[1]] else [[0]]) (_build_train_context 1 0 0)
      (by decide) (by decide) (by decide)⟩

/-- readDenoms distributes over trace concatenation. -/
theorem readDenoms_append (a b : List TrainEvent) :
    readDenoms (a ++ b) = readDenoms a ++ readDenoms b := by
  induction a with
  | nil => rfl
  | cons e rest ih =>
    cases e with
    | print m => simpa [readDenoms] using ih
    | boundaryRead sp d => simpa [readDenoms] using ih
    | save nm ds => simp [readDenoms, ih]

/-- With a positive sampling window, stepping every context succeeds;
each updated context's denominator is its (possibly reset) predecessor
plus batch_size, every read recorded during the steps is a boundary read
of some incoming context's denominator, and no print event is emitted. -/
theorem runCtxsFrom_ok (P : LoopParams) (n : Nat)
    (hfsw : 0 < P.feature_sampling_window) :
    ∀ (ctxs : List SAETrainContext) (k : Nat),
    ∃ ctxs2 evs, runCtxsFrom P n k ctxs = Except.ok (ctxs2, evs) ∧
      ctxs2.length = ctxs.length ∧
      (∀ c2 ∈ ctxs2, ∃ c ∈ ctxs, c2.n_frac_active_tokens
        = (if (n + 1) % P.feature_sampling_window = 0 then 0 else c.n_frac_active_tokens)
          + P.batch_size) ∧
      (∀ d ∈ readDenoms evs, (n + 1) % P.feature_sampling_window = 0 ∧
        ∃ c ∈ ctxs, d = c.n_frac_active_tokens) ∧
      (∀ m, TrainEvent.print m ∉ evs) := by
  intro ctxs
  induction ctxs with
  | nil =>
    intro k
    exact ⟨[], [], rfl, rfl, by simp, by simp [readDenoms], by simp⟩
  | cons c rest ih =>
    intro k
    obtain ⟨r, hr, hctr, hden, hsc, hev, hmask, hopt, hsch⟩ :=
      train_step_ok P.feature_sampling_window P.dead_feature_window P.batch_size
        P.d_sae n P.optStep P.schedStep (P.batches n k) c hfsw
    obtain ⟨rest2, evs2, hrun, hlen, hdens, hreads, hnoprint⟩ := ih (k + 1)
    refine ⟨r.ctx :: rest2, r.events ++ evs2, ?_, by simp [hlen], ?_, ?_, ?_⟩
    · simp [runCtxsFrom, hr, hrun]
    · intro c2 hc2
      rcases List.mem_cons.mp hc2 with rfl | hmem
      · exact ⟨c, List.mem_cons_self c rest, hden⟩
      · obtain ⟨c0, hc0, hc0d⟩ := hdens c2 hmem
        exact ⟨c0, List.mem_cons_of_mem c hc0, hc0d⟩
    · intro d hd
      rw [readDenoms_append] at hd
      rcases List.mem_append.mp hd with hd1 | hd2
      · by_cases hbd : (n + 1) % P.feature_sampling_window = 0
        · rw [hev] at hd1
          simp [hbd, readDenoms] at hd1
          exact ⟨hbd, c, List.mem_cons_self c rest, hd1⟩
        · rw [hev] at hd1
          simp [hbd, readDenoms] at hd1
      · obtain ⟨hbd, c0, hc0, hc0d⟩ := hreads d hd2
        exact ⟨hbd, c0, List.mem_cons_of_mem c hc0, hc0d⟩
    · intro m hm
      rcases List.mem_append.mp hm with hm1 | hm2
      · by_cases hbd : (n + 1) % P.feature_sampling_window = 0 <;>
          rw [hev] at hm1 <;> simp [hbd] at hm1
      · exact hnoprint m hm2

/-- The retention pass never returns: get_checkpoints_by_step either
raises ValueError itself, or returns one dict that the
`checkpoints, is_done = ...` unpack and the following `.keys()` call turn
into a ValueError or AttributeError, whatever the directory holds. -/
theorem remove_excess_always_raises (cp gn : String) (files : List String) :
    ∃ e, remove_excess_checkpoints cp gn files = Except.error e := by
  cases h : get_checkpoints_by_step cp gn files with
  | error e =>
    refine ⟨e, ?_⟩
    unfold remove_excess_checkpoints
    rw [h]
    rfl
  | ok m =>
    have hbind : remove_excess_checkpoints cp gn files
        = (match m.map (fun kv => kv.1) with
           | [_, _] => Except.error PyError.attributeError
           | _ => Except.error PyError.valueError) := by
      unfold remove_excess_checkpoints
      rw [h]
      rfl
    rcases hm : m.map (fun kv => kv.1) with _ | ⟨a, _ | ⟨b, _ | _⟩⟩ <;>
      rw [hm] at hbind <;> exact ⟨_, hbind⟩

/-- Every _save_checkpoint call raises: it writes its four files and
performs its sparsity reads, then the unconditional retention pass
raises, so the caller never receives a SaveCheckpointOutput. -/
theorem save_checkpoint_raises (logFn : Rat → Rat) (cp gn : String)
    (ctxs : List SAETrainContext) (name : String) (files : List String) :
    ∃ e, _save_checkpoint logFn cp gn ctxs name files
      = ((files ++ saveFileBasenames name gn,
          TrainEvent.save name (ctxs.map (fun c => c.n_frac_active_tokens))),
         Except.error e) := by
  obtain ⟨e, he⟩ := remove_excess_always_raises cp gn (files ++ saveFileBasenames name gn)
  refine ⟨e, ?_⟩
  unfold _save_checkpoint
  rw [he]

/-- A loop iteration whose step is not a checkpoint step succeeds:
tokens advance by batch_size, the step counter by one, the directory and
checkpoint_paths are untouched, and the recorded reads are boundary reads
of incoming denominators, with no print. -/
theorem stepIteration_nosave (P : LoopParams) (s : LoopState)
    (hfsw : 0 < P.feature_sampling_window) (hce : 0 < P.checkpoint_every)
    (hnc : ¬ s.n_training_steps % P.checkpoint_every = 0) :
    ∃ ctxs2 evs, stepIteration P s =
      ({ ctxs := ctxs2,
         n_training_steps := s.n_training_steps + 1,
         n_training_tokens := s.n_training_tokens + P.batch_size,
         checkpoint_paths := s.checkpoint_paths,
         files := s.files,
         events := s.events ++ evs }, none) ∧
      (∀ c2 ∈ ctxs2, ∃ c ∈ s.ctxs, c2.n_frac_active_tokens
        = (if (s.n_training_steps + 1) % P.feature_sampling_window = 0 then 0
           else c.n_frac_active_tokens) + P.batch_size) ∧
      (∀ d ∈ readDenoms evs,
        (s.n_training_steps + 1) % P.feature_sampling_window = 0 ∧
          ∃ c ∈ s.ctxs, d = c.n_frac_active_tokens) ∧
      (∀ m, TrainEvent.print m ∉ evs) := by
  obtain ⟨ctxs2, evs0, hrun, hlen, hdens, hreads, hnoprint⟩ :=
    runCtxsFrom_ok P s.n_training_steps hfsw s.ctxs 0
  have hcene : P.checkpoint_every ≠ 0 := Nat.pos_iff_ne_zero.mp hce
  refine ⟨ctxs2, evs0, ?_, hdens, hreads, hnoprint⟩
  simp [stepIteration, hrun, hcene, hnc]

/-- A loop iteration at a checkpoint step aborts: the contexts are
updated and the save writes its files and records its reads, but the
retention pass raises, the exception propagates out of the iteration and
n_training_steps is not incremented. -/
theorem stepIteration_save (P : LoopParams) (s : LoopState)
    (hfsw : 0 < P.feature_sampling_window) (hce : 0 < P.checkpoint_every)
    (hcp : s.n_training_steps % P.checkpoint_every = 0) :
    ∃ ctxs2 evs e, stepIteration P s =
      ({ ctxs := ctxs2,
         n_training_steps := s.n_training_steps,
         n_training_tokens := s.n_training_tokens + P.batch_size,
         checkpoint_paths := s.checkpoint_paths,
         files := s.files ++ saveFileBasenames
           (toString (s.n_training_tokens + P.batch_size)) P.group_name,
         events := s.events ++ evs ++
           [TrainEvent.save (toString (s.n_training_tokens + P.batch_size))
             (ctxs2.map (fun c => c.n_frac_active_tokens))] }, some e) ∧
      (∀ c2 ∈ ctxs2, ∃ c ∈ s.ctxs, c2.n_frac_active_tokens
        = (if (s.n_training_steps + 1) % P.feature_sampling_window = 0 then 0
           else c.n_frac_active_tokens) + P.batch_size) ∧
      (∀ d ∈ readDenoms evs,
        (s.n_training_steps + 1) % P.feature_sampling_window = 0 ∧
          ∃ c ∈ s.ctxs, d = c.n_frac_active_tokens) ∧
      (∀ m, TrainEvent.print m ∉ evs) := by
  obtain ⟨ctxs2, evs0, hrun, hlen, hdens, hreads, hnoprint⟩ :=
    runCtxsFrom_ok P s.n_training_steps hfsw s.ctxs 0
  have hcene : P.checkpoint_every ≠ 0 := Nat.pos_iff_ne_zero.mp hce
  obtain ⟨e, he⟩ := save_checkpoint_raises P.logFn P.checkpoint_path P.group_name ctxs2
    (toString (s.n_training_tokens + P.batch_size)) s.files
  refine ⟨ctxs2, evs0, e, ?_, hdens, hreads, hnoprint⟩
  simp [stepIteration, hrun, hcene, hcp, he]

/-- With sampling window at least 2, positive cadence and batch size, and
no interrupt, every feature_sparsity read recorded on any trace the loop
produces (including traces cut short by a save abort) has a positive
denominator, and after any step every context's denominator is at least
batch_size. -/
theorem runLoop_reads_pos (P : LoopParams)
    (hfsw2 : 2 ≤ P.feature_sampling_window) (hce : 0 < P.checkpoint_every)
    (hb : 0 < P.batch_size) (hint : P.interruptAt = none) :
    ∀ (fuel : Nat) (s : LoopState),
      (∀ c ∈ s.ctxs, 1 ≤ s.n_training_steps → P.batch_size ≤ c.n_frac_active_tokens) →
      (∀ d ∈ readDenoms s.events, 0 < d) →
      (∀ d ∈ readDenoms (runLoop P fuel s).1.events, 0 < d) ∧
      (∀ c ∈ (runLoop P fuel s).1.ctxs,
        1 ≤ (runLoop P fuel s).1.n_training_steps → P.batch_size ≤ c.n_frac_active_tokens) ∧
      s.n_training_steps ≤ (runLoop P fuel s).1.n_training_steps ∧
      (s.n_training_tokens < P.total_training_tokens →
        (runLoop P fuel s).2 = LoopOutcome.completed →
        1 ≤ (runLoop P fuel s).1.n_training_steps) := by
  have hfsw : 0 < P.feature_sampling_window := by omega
  intro fuel
  induction fuel with
  | zero =>
    intro s hctx hev
    refine ⟨hev, hctx, Nat.le_refl _, ?_⟩
    intro h1 h2
    exact absurd h2 (by simp [runLoop])
  | succ f ih =>
    intro s hctx hev
    by_cases hc : s.n_training_tokens < P.total_training_tokens
    · have hni : ¬ P.interruptAt = some s.n_training_steps := by
        rw [hint]; simp
      have hboundary_step : (s.n_training_steps + 1) % P.feature_sampling_window = 0 →
          1 ≤ s.n_training_steps := by
        intro hbd
        by_contra hn
        have hz : s.n_training_steps = 0 := by omega
        rw [hz] at hbd
        have h1 : (0 + 1) % P.feature_sampling_window = 1 := by
          rw [Nat.zero_add]
          exact Nat.mod_eq_of_lt (by omega)
        rw [h1] at hbd
        exact Nat.one_ne_zero hbd
      by_cases hchk : s.n_training_steps % P.checkpoint_every = 0
      · obtain ⟨ctxs2, evs, e, hstep, hdens, hreads, hnoprint⟩ :=
          stepIteration_save P s hfsw hce hchk
        have hred : runLoop P (f + 1) s =
            ({ ctxs := ctxs2,
               n_training_steps := s.n_training_steps,
               n_training_tokens := s.n_training_tokens + P.batch_size,
               checkpoint_paths := s.checkpoint_paths,
               files := s.files ++ saveFileBasenames
                 (toString (s.n_training_tokens + P.batch_size)) P.group_name,
               events := s.events ++ evs ++
                 [TrainEvent.save (toString (s.n_training_tokens + P.batch_size))
                   (ctxs2.map (fun c => c.n_frac_active_tokens))] },
             LoopOutcome.errored e) := by
          simp [runLoop, hc, hni, hstep]
        rw [hred]
        have hctx2 : ∀ c2 ∈ ctxs2, P.batch_size ≤ c2.n_frac_active_tokens := by
          intro c2 hc2
          obtain ⟨c, hcm, hcd⟩ := hdens c2 hc2
          rw [hcd]
          omega
        refine ⟨?_, ?_, Nat.le_refl _, ?_⟩
        · intro d hd
          replace hd : d ∈ readDenoms ((s.events ++ evs) ++
            [TrainEvent.save (toString (s.n_training_tokens + P.batch_size))
              (ctxs2.map (fun c => c.n_frac_active_tokens))]) := hd
          rw [readDenoms_append, readDenoms_append] at hd
          rcases List.mem_append.mp hd with hd01 | hd2
          · rcases List.mem_append.mp hd01 with hd0 | hd1
            · exact hev d hd0
            · obtain ⟨hbd, c, hcm, hcd⟩ := hreads d hd1
              have hcge := hctx c hcm (hboundary_step hbd)
              rw [hcd]
              omega
          · replace hd2 : d ∈ ctxs2.map (fun c => c.n_frac_active_tokens) := by
              simpa [readDenoms] using hd2
            obtain ⟨c2, hc2, hcd⟩ := List.mem_map.mp hd2
            have hge := hctx2 c2 hc2
            omega
        · intro c2 hc2 hst
          exact hctx2 c2 hc2
        · intro h1 h2
          exact absurd h2 (by simp)
      · obtain ⟨ctxs2, evs, hstep, hdens, hreads, hnoprint⟩ :=
          stepIteration_nosave P s hfsw hce hchk
        have hred : runLoop P (f + 1) s = runLoop P f
            ({ ctxs := ctxs2,
               n_training_steps := s.n_training_steps + 1,
               n_training_tokens := s.n_training_tokens + P.batch_size,
               checkpoint_paths := s.checkpoint_paths,
               files := s.files,
               events := s.events ++ evs }) := by
          simp [runLoop, hc, hni, hstep]
        rw [hred]
        have hctx2 : ∀ c2 ∈ ctxs2, P.batch_size ≤ c2.n_frac_active_tokens := by
          intro c2 hc2
          obtain ⟨c, hcm, hcd⟩ := hdens c2 hc2
          rw [hcd]
          omega
        have hevs : ∀ d ∈ readDenoms evs, 0 < d := by
          intro d hd
          obtain ⟨hbd, c, hcm, hcd⟩ := hreads d hd
          have hcge := hctx c hcm (hboundary_step hbd)
          rw [hcd]
          omega
        obtain ⟨ih1, ih2, ih3, ih4⟩ := ih
          ({ ctxs := ctxs2,
             n_training_steps := s.n_training_steps + 1,
             n_training_tokens := s.n_training_tokens + P.batch_size,
             checkpoint_paths := s.checkpoint_paths,
             files := s.files,
             events := s.events ++ evs })
          (by intro c2 hc2 hstp
              exact hctx2 c2 hc2)
          (by intro d hd
              replace hd : d ∈ readDenoms (s.events ++ evs) := hd
              rw [readDenoms_append] at hd
              rcases List.mem_append.mp hd with hd1 | hd2
              · exact hev d hd1
              · exact hevs d hd2)
        refine ⟨ih1, ih2, ?_, ?_⟩
        · calc s.n_training_steps ≤ s.n_training_steps + 1 := by omega
            _ ≤ _ := ih3
        · intro h1 h2
          exact Nat.le_trans (by show 1 ≤ s.n_training_steps + 1; omega) ih3
    · have : runLoop P (f + 1) s = (s, LoopOutcome.completed) := by
        simp [runLoop, hc]
      rw [this]
      refine ⟨hev, hctx, Nat.le_refl _, ?_⟩
      intro h1 h2
      exact absurd h1 hc

/-- Reduction of train_sae_group_on_language_model when the loop raised:
the exception propagates unchanged and no terminal checkpoint happens. -/
theorem train_group_errored (G : Type) (saeGroup : G) (P : LoopParams)
    (ctxs0 : List SAETrainContext) (a b : Nat) (e : PyError)
    (h : (runLoop P (P.total_training_tokens + 1)
        { ctxs := ctxs0, n_training_steps := a, n_training_tokens := b,
          checkpoint_paths := [], files := [], events := [] }).2 = LoopOutcome.errored e) :
    train_sae_group_on_language_model G saeGroup P ctxs0 a b =
      ((runLoop P (P.total_training_tokens + 1)
          { ctxs := ctxs0, n_training_steps := a, n_training_tokens := b,
            checkpoint_paths := [], files := [], events := [] }).1, RunResult.err e) := by
  rcases hrl : runLoop P (P.total_training_tokens + 1)
      { ctxs := ctxs0, n_training_steps := a, n_training_tokens := b,
        checkpoint_paths := [], files := [], events := [] } with ⟨sF, oc⟩
  rw [hrl] at h
  simp only at h
  subst h
  unfold train_sae_group_on_language_model
  rw [hrl]

/-- Reduction of train_sae_group_on_language_model when the while loop
exits normally: the terminal save writes its files and records its
sparsity reads, then its retention pass raises, so the function
propagates that exception instead of returning an output. -/
theorem train_group_completed_aborts (G : Type) (saeGroup : G) (P : LoopParams)
    (ctxs0 : List SAETrainContext) (a b : Nat)
    (h : (runLoop P (P.total_training_tokens + 1)
        { ctxs := ctxs0, n_training_steps := a, n_training_tokens := b,
          checkpoint_paths := [], files := [], events := [] }).2 = LoopOutcome.completed) :
    ∃ e, train_sae_group_on_language_model G saeGroup P ctxs0 a b =
      ({ (runLoop P (P.total_training_tokens + 1)
            { ctxs := ctxs0, n_training_steps := a, n_training_tokens := b,
              checkpoint_paths := [], files := [], events := [] }).1 with
          events := (runLoop P (P.total_training_tokens + 1)
              { ctxs := ctxs0, n_training_steps := a, n_training_tokens := b,
                checkpoint_paths := [], files := [], events := [] }).1.events ++
            [TrainEvent.save (finalTag ++ toString (runLoop P (P.total_training_tokens + 1)
                { ctxs := ctxs0, n_training_steps := a, n_training_tokens := b,
                  checkpoint_paths := [], files := [], events := [] }).1.n_training_tokens)
              ((runLoop P (P.total_training_tokens + 1)
                { ctxs := ctxs0, n_training_steps := a, n_training_tokens := b,
                  checkpoint_paths := [], files := [], events := [] }).1.ctxs.map
                (fun c => c.n_frac_active_tokens))],
          files := (runLoop P (P.total_training_tokens + 1)
              { ctxs := ctxs0, n_training_steps := a, n_training_tokens := b,
                checkpoint_paths := [], files := [], events := [] }).1.files ++
            saveFileBasenames (finalTag ++ toString (runLoop P (P.total_training_tokens + 1)
                { ctxs := ctxs0, n_training_steps := a, n_training_tokens := b,
                  checkpoint_paths := [], files := [], events := [] }).1.n_training_tokens)
              P.group_name },
       RunResult.err e) := by
  rcases hrl : runLoop P (P.total_training_tokens + 1)
      { ctxs := ctxs0, n_training_steps := a, n_training_tokens := b,
        checkpoint_paths := [], files := [], events := [] } with ⟨sF, oc⟩
  rw [hrl] at h
  simp only at h
  subst h
  obtain ⟨e, he⟩ := save_checkpoint_raises P.logFn P.checkpoint_path P.group_name sF.ctxs
    (finalTag ++ toString sF.n_training_tokens) sF.files
  refine ⟨e, ?_⟩
  unfold train_sae_group_on_language_model
  rw [hrl]
  show (match _save_checkpoint P.logFn P.checkpoint_path P.group_name sF.ctxs
      (finalTag ++ toString sF.n_training_tokens) sF.files with
    | ((files2, ev), Except.error e2) =>
      ({ sF with events := sF.events ++ [ev], files := files2 }, RunResult.err e2)
    | ((files2, ev), Except.ok saved) =>
      ({ sF with events := sF.events ++ [ev], files := files2,
                 checkpoint_paths := sF.checkpoint_paths ++ [saved.path] },
       RunResult.ok
        { sae_group := saeGroup, checkpoint_paths := sF.checkpoint_paths ++ [saved.path],
          log_feature_sparsities := saved.log_feature_sparsities })) = _
  rw [he]

/-- C8 amended: in a fresh uninterrupted run with feature_sampling_window
at least 2, positive checkpoint cadence, positive batch size and a
positive token budget, every read of feature_sparsity the program
performs — boundary reads and the reads inside each save, up to the point
the run aborts in a save's retention pass — happens with a strictly
positive denominator n_frac_active_tokens. -/
theorem sparsity_reads_positive_denominator (G : Type) (saeGroup : G) (P : LoopParams)
    (ctxs0 : List SAETrainContext)
    (hfsw2 : 2 ≤ P.feature_sampling_window) (hce : 0 < P.checkpoint_every)
    (hb : 0 < P.batch_size) (htot : 0 < P.total_training_tokens)
    (hI : P.interruptAt = none) :
    ∀ d ∈ readDenoms (train_sae_group_on_language_model G saeGroup P ctxs0 0 0).1.events,
      0 < d := by
  obtain ⟨hev, hctx, hmono, hcomp⟩ := runLoop_reads_pos P hfsw2 hce hb hI
    (P.total_training_tokens + 1)
    ({ ctxs := ctxs0, n_training_steps := 0, n_training_tokens := 0,
       checkpoint_paths := [], files := [], events := [] })
    (by intro c hc h1
        exact absurd (show (1 : Nat) ≤ 0 from h1) (by omega))
    (by intro d hd
        simp [readDenoms] at hd)
  by_cases hoc : (runLoop P (P.total_training_tokens + 1)
      { ctxs := ctxs0, n_training_steps := 0, n_training_tokens := 0,
        checkpoint_paths := [], files := [], events := [] }).2 = LoopOutcome.completed
  · obtain ⟨e, hEq⟩ := train_group_completed_aborts G saeGroup P ctxs0 0 0 hoc
    rw [hEq]
    intro d hd
    replace hd : d ∈ readDenoms ((runLoop P (P.total_training_tokens + 1)
        { ctxs := ctxs0, n_training_steps := 0, n_training_tokens := 0,
          checkpoint_paths := [], files := [], events := [] }).1.events ++
      [TrainEvent.save (finalTag ++ toString (runLoop P (P.total_training_tokens + 1)
          { ctxs := ctxs0, n_training_steps := 0, n_training_tokens := 0,
            checkpoint_paths := [], files := [], events := [] }).1.n_training_tokens)
        ((runLoop P (P.total_training_tokens + 1)
          { ctxs := ctxs0, n_training_steps := 0, n_training_tokens := 0,
            checkpoint_paths := [], files := [], events := [] }).1.ctxs.map
          (fun c => c.n_frac_active_tokens))]) := hd
    rw [readDenoms_append] at hd
    rcases List.mem_append.mp hd with hd1 | hd2
    · exact hev d hd1
    · replace hd2 : d ∈ (runLoop P (P.total_training_tokens + 1)
          { ctxs := ctxs0, n_training_steps := 0, n_training_tokens := 0,
            checkpoint_paths := [], files := [], events := [] }).1.ctxs.map
          (fun c => c.n_frac_active_tokens) := by
        simpa [readDenoms] using hd2
      obtain ⟨c, hcmem, hcd⟩ := List.mem_map.mp hd2
      have hst := hcomp htot hoc
      have hge := hctx c hcmem hst
      omega
  · rcases hrl : runLoop P (P.total_training_tokens + 1)
        { ctxs := ctxs0, n_training_steps := 0, n_training_tokens := 0,
          checkpoint_paths := [], files := [], events := [] } with ⟨sF, oc⟩
    rw [hrl] at hev hoc
    cases oc with
    | completed => exact absurd rfl hoc
    | errored e =>
      unfold train_sae_group_on_language_model
      rw [hrl]
      intro d hd
      exact hev d hd
    | outOfFuel =>
      unfold train_sae_group_on_language_model
      rw [hrl]
      intro d hd
      exact hev d hd

/-- The names of the checkpoint saves recorded in a trace. -/
def saveNames : List TrainEvent → List String
  | [] => []
  | TrainEvent.print _ :: rest => saveNames rest
  | TrainEvent.boundaryRead _ _ :: rest => saveNames rest
  | TrainEvent.save n _ :: rest => n :: saveNames rest

/-- The checkpoint-path list of a run result: the returned
checkpoint_paths for a normal return, empty for a raised exception. -/
def returnedCheckpointPaths {G : Type} : RunResult G → List String
  | RunResult.ok out => out.checkpoint_paths
  | RunResult.err _ => []
  | RunResult.fuelOut => []

/-- Whether a run result is a normal return. -/
def returnedOk {G : Type} : RunResult G → Bool
  | RunResult.ok _ => true
  | RunResult.err _ => false
  | RunResult.fuelOut => false

/-- Concrete fixture: budget 300, batch 100, checkpoint every step,
fresh directory. -/
def paramsOnlyFinalReturned : LoopParams :=
  { total_training_tokens := 300, batch_size := 100, feature_sampling_window := 1000,
    checkpoint_every := 1, dead_feature_window := 0, d_sae := 1,
    checkpoint_path := slashSep, group_name := strMean, interruptAt := none,
    batches := fun _ _ => [[1]], optStep := id, schedStep := id, logFn := id }

/-- C4: the claim that train_sae_group_on_language_model returns the
trained group, the list of every checkpoint location and the final
sparsity snapshot is unrealizable: the step-0 periodic save's retention
pass raises ValueError (single-dict unpack of get_checkpoints_by_step's
return), so the run aborts during the first iteration — nothing is ever
returned, the only save performed is the periodic one named 100, and
n_training_steps is still 0. -/
theorem run_aborts_before_returning_output :
    (train_sae_group_on_language_model Unit () paramsOnlyFinalReturned
        [_build_train_context 1 0 0] 0 0).2 = RunResult.err PyError.valueError ∧
    returnedOk (train_sae_group_on_language_model Unit () paramsOnlyFinalReturned
        [_build_train_context 1 0 0] 0 0).2 = false ∧
    returnedCheckpointPaths (train_sae_group_on_language_model Unit () paramsOnlyFinalReturned
        [_build_train_context 1 0 0] 0 0).2 = [] ∧
    (train_sae_group_on_language_model Unit () paramsOnlyFinalReturned
        [_build_train_context 1 0 0] 0 0).1.n_training_steps = 0 ∧
    saveNames (train_sae_group_on_language_model Unit () paramsOnlyFinalReturned
        [_build_train_context 1 0 0] 0 0).1.events = [toString 100] := by
  refine ⟨by rfl, by rfl, by rfl, by rfl, by rfl⟩

/-- Concrete fixture: termination signal at the start of the first
iteration. -/
def paramsInterruptAtZero : LoopParams :=
  { total_training_tokens := 300, batch_size := 100, feature_sampling_window := 1000,
    checkpoint_every := 1, dead_feature_window := 0, d_sae := 1,
    checkpoint_path := slashSep, group_name := strMean, interruptAt := some 0,
    batches := fun _ _ => [[1]], optStep := id, schedStep := id, logFn := id }

/-- C3: on an interrupt the handler prints "interrupted, saving
progress" and performs the save's writes and reads, but the save's
retention pass raises ValueError, so "done saving" is never printed and
the run ends with ValueError instead of re-raising the interruption. -/
theorem interrupt_save_aborts_in_retention :
    (train_sae_group_on_language_model Unit () paramsInterruptAtZero
        [_build_train_context 1 0 0] 0 0).2 = RunResult.err PyError.valueError ∧
    (train_sae_group_on_language_model Unit () paramsInterruptAtZero
        [_build_train_context 1 0 0] 0 0).1.events
      = [TrainEvent.print msgInterrupted, TrainEvent.save (toString 0) [0]] ∧
    TrainEvent.print msgDoneSaving
      ∉ (train_sae_group_on_language_model Unit () paramsInterruptAtZero
          [_build_train_context 1 0 0] 0 0).1.events ∧
    (train_sae_group_on_language_model Unit () paramsInterruptAtZero
        [_build_train_context 1 0 0] 0 0).2 ≠ RunResult.err PyError.interrupted := by
  have hev : (train_sae_group_on_language_model Unit () paramsInterruptAtZero
      [_build_train_context 1 0 0] 0 0).1.events
      = [TrainEvent.print msgInterrupted, TrainEvent.save (toString 0) [0]] := by rfl
  have hres : (train_sae_group_on_language_model Unit () paramsInterruptAtZero
      [_build_train_context 1 0 0] 0 0).2 = RunResult.err PyError.valueError := by rfl
  refine ⟨hres, hev, ?_, ?_⟩
  · rw [hev]
    decide
  · rw [hres]
    decide

/-- Concrete fixture: the spec's end-to-end scenario, budget 1000, batch
100, checkpoint_every 5. -/
def paramsBudget1000 : LoopParams :=
  { total_training_tokens := 1000, batch_size := 100, feature_sampling_window := 1000,
    checkpoint_every := 5, dead_feature_window := 0, d_sae := 1,
    checkpoint_path := slashSep, group_name := strMean, interruptAt := none,
    batches := fun _ _ => [[1]], optStep := id, schedStep := id, logFn := id }

/-- C5: the end-to-end scenario (budget 1000, batch 100,
checkpoint_every 5) aborts with ValueError at the step-0 periodic save's
retention pass: the run performs no full step (n_training_steps = 0, one
batch consumed), and no checkpoint labeled final_1000 is ever saved. -/
theorem budget_1000_aborts_at_first_save :
    (train_sae_group_on_language_model Unit () paramsBudget1000
        [_build_train_context 1 0 0] 0 0).2 = RunResult.err PyError.valueError ∧
    (train_sae_group_on_language_model Unit () paramsBudget1000
        [_build_train_context 1 0 0] 0 0).1.n_training_steps = 0 ∧
    (train_sae_group_on_language_model Unit () paramsBudget1000
        [_build_train_context 1 0 0] 0 0).1.n_training_tokens = 100 ∧
    finalTag ++ toString 1000
      ∉ saveNames (train_sae_group_on_language_model Unit () paramsBudget1000
          [_build_train_context 1 0 0] 0 0).1.events := by
  have hsn : saveNames (train_sae_group_on_language_model Unit () paramsBudget1000
      [_build_train_context 1 0 0] 0 0).1.events = [toString 100] := by rfl
  refine ⟨by rfl, by rfl, by rfl, ?_⟩
  rw [hsn]
  decide

/-- Concrete fixture: the configuration default checkpoint_every = 0. -/
def paramsCheckpointEveryZero : LoopParams :=
  { total_training_tokens := 100, batch_size := 100, feature_sampling_window := 1000,
    checkpoint_every := 0, dead_feature_window := 0, d_sae := 1,
    checkpoint_path := slashSep, group_name := strMean, interruptAt := none,
    batches := fun _ _ => [[1]], optStep := id, schedStep := id, logFn := id }

/-- C2: with checkpoint_every = 0 (the configuration default), the
periodic checkpoint trigger `n_training_steps % checkpoint_every == 0`
raises ZeroDivisionError on the first loop iteration, so the run aborts
instead of running to completion. -/
theorem checkpoint_every_zero_faults :
    (train_sae_group_on_language_model Unit () paramsCheckpointEveryZero
        [_build_train_context 1 0 0] 0 0).2 = RunResult.err PyError.zeroDivision := by
  rfl

/-- Concrete fixture: feature_sampling_window = 1. -/
def paramsWindowOne : LoopParams :=
  { total_training_tokens := 100, batch_size := 100, feature_sampling_window := 1,
    checkpoint_every := 1, dead_feature_window := 0, d_sae := 1,
    checkpoint_path := slashSep, group_name := strMean, interruptAt := none,
    batches := fun _ _ => [[1]], optStep := id, schedStep := id, logFn := id }

/-- C8 counterexample: with feature_sampling_window = 1 the very first
step is a sparsity-window boundary and reads feature_sparsity while
n_frac_active_tokens is still 0, so not every read of the property has a
strictly positive denominator. -/
theorem feature_sparsity_read_with_zero_denominator :
    ¬ (∀ d ∈ readDenoms ((train_sae_group_on_language_model Unit () paramsWindowOne
        [_build_train_context 1 0 0] 0 0).1.events), 0 < d) := by
  have hrd : readDenoms ((train_sae_group_on_language_model Unit () paramsWindowOne
      [_build_train_context 1 0 0] 0 0).1.events) = [0, 100] := by rfl
  rw [hrd]
  decide

/-- Concrete fixture: sampling window 2, budget 200. -/
def paramsWindowTwo : LoopParams :=
  { total_training_tokens := 200, batch_size := 100, feature_sampling_window := 2,
    checkpoint_every := 1, dead_feature_window := 0, d_sae := 1,
    checkpoint_path := slashSep, group_name := strMean, interruptAt := none,
    batches := fun _ _ => [[1]], optStep := id, schedStep := id, logFn := id }

/-- C8 witness: the amended theorem applied at the window-2 fixture, at
the denominator its save read records. -/
theorem sparsity_reads_positive_denominator_witness : 0 < (100 : Nat) := by
  exact sparsity_reads_positive_denominator Unit () paramsWindowTwo
    [_build_train_context 1 0 0] (by decide) (by decide) (by decide) (by decide) rfl
    100
    (by have hrd : readDenoms ((train_sae_group_on_language_model Unit () paramsWindowTwo
          [_build_train_context 1 0 0] 0 0).1.events) = [100] := by rfl
        rw [hrd]
        decide)
